import Mathlib

/-!
Verification of the tracker data processor
(`src/services/tracker_processor.py`) of the codepath-discord-bot
repository.

The processor ingests weekly self-report CSV rows, reconstructs each
participant's chronological contribution-scoped history, derives
streak/flag fields, classifies each record into a risk tier with an
intervention code, and emits a multi-sheet report.

The embedding below mirrors the Python source.  Python strings are
modelled as `String` with character-list based helpers (`pyLower`,
`pyStrip`, `strContains`, ...) that reproduce the exact semantics of the
Python methods used by the source (`.lower()`, `.strip()`, `in`,
`.replace`, `.split()`, `int(...)`) and reduce in the kernel.  Python
ints are `Int`.  Python dicts used as lookups are association lists with
last-write-wins insert.  Python's stable `list.sort` is modelled with
`List.insertionSort`, which is stable for the reflexive key orders used
here (an earlier element is inserted before a later element with an
equal key), hence produces the same list as any stable sort.
-/

-- ==================== Python string primitives ====================

/-- Substring test on character lists: `pat` occurs contiguously in `s`.
Models Python's `pat in s`. -/
def listInfix (pat s : List Char) : Bool :=
  match s with
  | [] => pat.isEmpty
  | _ :: rest => pat.isPrefixOf s || listInfix pat rest

/-- Python `needle in hay` for strings. -/
def strContains (hay needle : String) : Bool :=
  listInfix needle.data hay.data

/-- Python `str.lower()` (ASCII case folding, as used by the source's
header and phase keywords). -/
def pyLower (s : String) : String :=
  ⟨s.data.map Char.toLower⟩

/-- Python `str.strip()`: drop leading and trailing whitespace. -/
def pyStrip (s : String) : String :=
  ⟨((s.data.dropWhile Char.isWhitespace).reverse.dropWhile Char.isWhitespace).reverse⟩

/-- Python `str.rstrip()`: drop trailing whitespace. -/
def pyStripRight (s : String) : String :=
  ⟨(s.data.reverse.dropWhile Char.isWhitespace).reverse⟩

/-- Helper for `replaceChars`: while `skip > 0` the characters belong to an
already-replaced occurrence of the pattern and are dropped. -/
def replaceCharsAux (pat rep : List Char) (skip : Nat) : List Char → List Char
  | [] => []
  | c :: cs =>
    match skip with
    | k + 1 => replaceCharsAux pat rep k cs
    | 0 =>
      if pat.isPrefixOf (c :: cs) ∧ pat ≠ [] then
        rep ++ replaceCharsAux pat rep (pat.length - 1) cs
      else
        c :: replaceCharsAux pat rep 0 cs

/-- Python `s.replace(pat, rep)`: replace every non-overlapping occurrence,
left to right (the source only uses non-empty patterns). -/
def replaceStr (s pat rep : String) : String :=
  ⟨replaceCharsAux pat.data rep.data 0 s.data⟩

/-- Helper for `splitWS`: `cur` is the reversed current token. -/
def splitWSAux (cur : List Char) : List Char → List (List Char)
  | [] => if cur.isEmpty then [] else [cur.reverse]
  | c :: cs =>
    if c.isWhitespace then
      if cur.isEmpty then splitWSAux [] cs else cur.reverse :: splitWSAux [] cs
    else
      splitWSAux (c :: cur) cs

/-- Python `str.split()` with no argument: split on whitespace runs,
discarding empty tokens. -/
def pySplitWhitespace (s : String) : List String :=
  (splitWSAux [] s.data).map (fun cs => ⟨cs⟩)

/-- Digit-string accumulator for `pyInt`. -/
def pyDigitsAux (acc : Nat) : List Char → Option Nat
  | [] => some acc
  | c :: cs =>
    if '0' ≤ c ∧ c ≤ '9' then pyDigitsAux (acc * 10 + (c.toNat - '0'.toNat)) cs
    else none

/-- Parse a non-empty all-digit character list. -/
def pyDigits : List Char → Option Nat
  | [] => none
  | c :: cs => pyDigitsAux 0 (c :: cs)

/-- Python `int(s)` on a decimal string: surrounding whitespace is ignored,
an optional single sign is allowed, otherwise only digits.  (Python's
underscore digit grouping and non-ASCII digits are not modelled; the
source only feeds it form answers such as "3".)  `none` models the
`ValueError` that the source catches with `except`. -/
def pyInt (s : String) : Option Int :=
  match (pyStrip s).data with
  | '-' :: cs => (pyDigits cs).map (fun n => -(n : Int))
  | '+' :: cs => (pyDigits cs).map (fun n => (n : Int))
  | cs => (pyDigits cs).map (fun n => (n : Int))

/-- Boolean-like cell coercion of `_transform_records` (lines 524-526):
true iff the stripped, lowered value is one of "1", "1.0", "yes", "true". -/
def pyBool (v : String) : Bool :=
  let t := pyLower (pyStrip v)
  t == "1" || t == "1.0" || t == "yes" || t == "true"

-- ==================== Data model ====================

/-- The `StudentRecord` dataclass (tracker_processor.py lines 22-105),
restricted to the fields read or written by the transformation, the
timeline engine, the classifier and the report emitter as embedded here;
pure passthrough text fields (progress summaries, commit metadata not
used by any modelled computation, office-hour flags, notes) are omitted.
`missing_previous_phase` and `illogical_phase_change` model the dynamic
attributes `_missing_previous_phase` / `_illogical_phase_change`, which
the classifier reads with `getattr(..., False)`, hence default `false`. -/
structure StudentRecord where
  name : String := ""
  member_id : String := ""
  discord_username : String := ""
  week : Int := 0
  wed_submitted : Bool := false
  sun_submitted : Bool := false
  submission_count_cumulative : Int := 0
  current_phase : String := ""
  weeks_in_phase : Int := 1
  contribution_num : Int := 1
  contribution_start_week : Int := 1
  weeks_on_contribution : Int := 1
  weeks_remaining : Int := 8
  timeline_type : String := "Standard"
  phase_changed_this_week : Bool := false
  issue_url : String := ""
  mr_url : String := ""
  mr_status : String := ""
  why_chosen_complete : Bool := false
  reproduction_complete : Bool := false
  solution_complete : Bool := false
  implementation_complete : Bool := false
  testing_complete : Bool := false
  feedback_complete : Bool := false
  deliverables_expected : Int := 0
  deliverables_complete : Int := 0
  days_since_commit : Int := 0
  blocked : Bool := false
  blocker_desc : String := ""
  issue_url_previous_week : String := ""
  issue_changed : Bool := false
  issue_change_week : Int := 0
  issue_swap_detected : Bool := false
  new_contribution_detected : Bool := false
  grade_status : String := "🟢 ON TRACK"
  intervention_type : String := ""
  consecutive_misses : Int := 0
  missing_previous_phase : Bool := false
  illogical_phase_change : Bool := false
  deriving DecidableEq, Repr

instance : Inhabited StudentRecord := ⟨{}⟩

/-- A parsed CSV row: ordered association list of header to cell value,
modelling the `Dict` rows produced by `csv.DictReader`. -/
def Row : Type := List (String × String)

instance : Inhabited Row := ⟨([] : List (String × String))⟩

-- ==================== Column resolution ====================

/-- The `_normalize_header` helper (lines 161-163):
`header.strip().lower().replace("?", "").rstrip()`. -/
def normalizeHeader (header : String) : String :=
  pyStripRight (replaceStr (pyLower (pyStrip header)) "?" "")

/-- The `_get_value_flexible` helper (lines 166-181): exact header match
first, then normalized match (first row column in order). -/
def getValueFlexible (row : Row) (targetCol : String) : Option String :=
  match (row : List (String × String)).find? (fun kv => kv.1 == targetCol) with
  | some kv => some kv.2
  | none =>
    ((row : List (String × String)).find?
      (fun kv => normalizeHeader kv.1 == normalizeHeader targetCol)).map (fun kv => kv.2)

/-- The `DISCORD_USERNAME_COLUMNS` candidate list (lines 140-145). -/
def discordUsernameColumns : List String :=
  ["What is your Discord username?", "Discord Username", "Discord", "discord_username"]

/-- `MASTER_CSV_COLUMNS["member_id"]` (line 150). -/
def masterMemberIdColumns : List String := ["Member ID", "member_id", "MemberID"]

/-- `MASTER_CSV_COLUMNS["discord_username"]` (line 151). -/
def masterDiscordColumns : List String := ["Discord Username", "Discord", "discord_username"]

/-- The `_find_column` helper (lines 361-374): exact match over the
candidate names first, then a case-insensitive pass.  The case-insensitive
pass returns the header stored in the `headers_lower` dict, i.e. the last
header with that lowering (later dict writes override earlier ones). -/
def findColumn (headers possibleNames : List String) : Option String :=
  match possibleNames.find? (fun n => headers.contains n) with
  | some n => some n
  | none =>
    match possibleNames.find? (fun n => headers.any (fun h => pyLower h == pyLower n)) with
    | some n => headers.reverse.find? (fun h => pyLower h == pyLower n)
    | none => none

-- ==================== Lookup dictionaries ====================

/-- Dict insert with string keys: overwriting write, as in
`discord_lookup[member_id] = discord_username`. -/
def dictInsert (m : List (String × String)) (k v : String) : List (String × String) :=
  (m.filter (fun p => p.1 ≠ k)) ++ [(k, v)]

/-- Dict lookup: `m[k]` / `k in m`. -/
def dictFind (m : List (String × String)) (k : String) : Option String :=
  (m.find? (fun p => p.1 == k)).map (fun p => p.2)

/-- The `_build_discord_lookup` fold body shared with
`_build_master_discord_lookup` (lines 418-424 and 461-466): keep the pair
only when both stripped values are non-empty; later rows override. -/
def lookupFold (midCol dCol : String) (rows : List Row) : List (String × String) :=
  rows.foldl
    (fun m row =>
      let memberId := pyStrip ((getValueFlexible row midCol).getD "")
      let discordName := pyStrip ((getValueFlexible row dCol).getD "")
      if memberId ≠ "" ∧ discordName ≠ "" then dictInsert m memberId discordName else m)
    []

/-- The `_build_discord_lookup` method (lines 432-468) over parsed
typeform rows: resolves the discord and member-id columns, then scans all
rows keeping the last-seen handle per member id.  The member-id column is
the single `CSV_COLUMN_MAP` key mapped to `member_id`, required verbatim
among the headers. -/
def buildDiscordLookup (rawRows : List Row) : List (String × String) :=
  match rawRows with
  | [] => []
  | r0 :: _ =>
    let headers := (r0 : List (String × String)).map (fun kv => kv.1)
    match findColumn headers discordUsernameColumns with
    | none => []
    | some dCol =>
      if headers.contains "What's your Member ID?" then
        lookupFold "What's your Member ID?" dCol rawRows
      else []

/-- The `_build_master_discord_lookup` method (lines 376-430) from
already-parsed roster rows (byte decoding and delimiter sniffing are
upstream I/O, not modelled): missing columns yield an empty lookup. -/
def buildMasterDiscordLookup (rows : List Row) : List (String × String) :=
  match rows with
  | [] => []
  | r0 :: _ =>
    let headers := (r0 : List (String × String)).map (fun kv => kv.1)
    match findColumn headers masterMemberIdColumns with
    | none => []
    | some mCol =>
      match findColumn headers masterDiscordColumns with
      | none => []
      | some dCol => lookupFold mCol dCol rows

/-- The lookup merge in `process` (lines 316-319): the master lookup wins;
typeform entries fill only absent keys. -/
def mergeLookups (master typeform : List (String × String)) : List (String × String) :=
  typeform.foldl
    (fun m kv => if (dictFind m kv.1).isSome then m else m ++ [kv])
    master

-- ==================== Record transformation ====================

/-- The `_normalize_phase` method (lines 544-556): lower the value, then
keyword containment checked in order 1→4; an unmatched value is returned
lowered (`return phase_str` returns the already-lowered string). -/
def normalizePhase (phaseStr : String) : String :=
  let p := pyLower phaseStr
  if strContains p "1" || strContains p "selection" then "Phase 1"
  else if strContains p "2" || strContains p "reproduction" then "Phase 2"
  else if strContains p "3" || strContains p "implementation" then "Phase 3"
  else if strContains p "4" || strContains p "submission" then "Phase 4"
  else p

/-- The `_get_phase_number` method (lines 800-810): substring containment
checks in order; no match gives 0. -/
def getPhaseNumber (phaseStr : String) : Nat :=
  if strContains phaseStr "1" then 1
  else if strContains phaseStr "2" then 2
  else if strContains phaseStr "3" then 3
  else if strContains phaseStr "4" then 4
  else 0

/-- The contribution-number coercion of `_transform_records`
(lines 506-515).  The cell defaults to 1 (the dataclass default) when the
branch never assigns.  Note the source checks `"Contribution" in value`
FIRST: a value containing "No Contribution" also contains "Contribution",
takes the first branch, `int("Contribution")` raises, and the bare
`except` assigns 1 — the explicit `"No Contribution" → 0` branch is
unreachable.  The branch structure is reproduced verbatim. -/
def parseContributionNum (value : String) : Int :=
  if strContains value "Contribution" then
    match (pySplitWhitespace value).getLast? with
    | some tok => (pyInt tok).getD 1
    | none => 1
  else if strContains value "No Contribution" then 0
  else 1

/-- The week coercion of `_transform_records` (lines 499-505):
`int(value.replace("Week ", "").strip())`, defaulting to 0 on failure. -/
def parseWeek (value : String) : Int :=
  (pyInt (pyStrip (replaceStr value "Week " ""))).getD 0

/-- Boolean field helper: a missing column leaves the dataclass default
`false`; a present value goes through the boolean-like coercion. -/
def boolField (row : Row) (col : String) : Bool :=
  match getValueFlexible row col with
  | some v => pyBool v
  | none => false

/-- String field helper: a missing column leaves the dataclass default "". -/
def strField (row : Row) (col : String) : String :=
  (getValueFlexible row col).getD ""

/-- The per-row body of `_transform_records` (lines 481-540), written
field-by-field: the Python loop walks `CSV_COLUMN_MAP` and each entry
writes exactly one distinct field, so the sequential `setattr` loop is
equivalent to computing each modelled field from its own column.  Columns
mapped to unmodelled passthrough fields and the `_tags` note are omitted.
The discord fill after the loop (lines 535-538) runs when the username is
still empty and a member id is present. -/
def transformRecord (lookup : List (String × String)) (row : Row) : StudentRecord :=
  let memberId := strField row "What's your Member ID?"
  let discordRaw := strField row "What is your Discord username?"
  let wedSun : Bool × Bool :=
    match getValueFlexible row "Which submission are you completing?" with
    | some v =>
      if strContains v "Wednesday" then (true, false)
      else if strContains v "Sunday" then (false, true)
      else (false, false)
    | none => (false, false)
  let discordName :=
    if discordRaw = "" ∧ memberId ≠ "" then
      match dictFind lookup (pyStrip memberId) with
      | some d => d
      | none => discordRaw
    else discordRaw
  { name := strField row "What's your name?"
    member_id := memberId
    discord_username := discordName
    week :=
      match getValueFlexible row "Which week is this?" with
      | some v => parseWeek v
      | none => 0
    contribution_num :=
      match getValueFlexible row "Which contribution are you reporting on?" with
      | some v => parseContributionNum v
      | none => 1
    wed_submitted := wedSun.1
    sun_submitted := wedSun.2
    current_phase :=
      match getValueFlexible row "What phase are you currently in?" with
      | some v => normalizePhase v
      | none => ""
    issue_url := strField row "Direct link to your GitLab issue"
    mr_url := strField row "Direct link to your Merge Request (MR) or Pull Request (PR)"
    why_chosen_complete :=
      boolField row "Have you completed the \"Why I chose this issue\" section in your README?"
    reproduction_complete :=
      boolField row "Have you documented your reproduction process in your README?"
    solution_complete :=
      boolField row "Have you documented your solution approach in your README?"
    implementation_complete :=
      boolField row "Have you documented your implementation progress in your README?"
    testing_complete :=
      boolField row "Have you documented your testing strategy in your README?"
    feedback_complete :=
      boolField row "Have you documented any maintainer feedback in your README?"
    blocked := boolField row "Are you currently blocked or stuck?"
    blocker_desc := strField row "Describe what you're blocked on" }

/-- The `_transform_records` method (lines 470-542): one record per row,
in input order. -/
def transformRecords (lookup : List (String × String)) (rawRows : List Row) : List StudentRecord :=
  rawRows.map (transformRecord lookup)

-- ==================== Per-participant timeline engine ====================

/-- Running context of the phase-tracking loop of
`_calculate_weeks_in_phase` (lines 618-624).  All trackers start as
Python `None`; `phasesSubmitted` models the `set` of phase numbers seen
within the current contribution (only membership is queried). -/
structure PhaseState where
  currentContribution : Option Int := none
  currentPhase : Option Nat := none
  phaseStartWeek : Option Int := none
  contributionStartWeek : Option Int := none
  phasesSubmitted : List Nat := []
  deriving DecidableEq, Repr

/-- One iteration of the phase-tracking loop (lines 626-691): contribution
reset, phase-set tracking, phase comparison with seeding / transition,
weeks-in-phase and weeks-on-contribution, missing-previous-phase flag.
`contributionStartWeek` and `phaseStartWeek` are always assigned before
being read (the very first record resets the contribution trackers), so
the `getD 0` fallbacks are unreachable. -/
def phaseStep (st : PhaseState) (r : StudentRecord) : PhaseState × StudentRecord :=
  let phaseNum := getPhaseNumber r.current_phase
  let week := r.week
  let contribNum := r.contribution_num
  let st1 :=
    if some contribNum ≠ st.currentContribution then
      { currentContribution := some contribNum
        currentPhase := none
        phaseStartWeek := none
        contributionStartWeek := some week
        phasesSubmitted := [] }
    else st
  let st2 :=
    if phaseNum > 0 then { st1 with phasesSubmitted := phaseNum :: st1.phasesSubmitted }
    else st1
  let csw := st2.contributionStartWeek.getD 0
  let seeded : PhaseState × Bool × Bool :=
    if some phaseNum ≠ st2.currentPhase then
      let previousPhase := st2.currentPhase
      match st2.phaseStartWeek with
      | none =>
        let psw :=
          if phaseNum = 1 then csw
          else min week (max csw (csw + ((phaseNum : Int) - 1)))
        ({ st2 with currentPhase := some phaseNum, phaseStartWeek := some psw }, false, false)
      | some _ =>
        ({ st2 with currentPhase := some phaseNum, phaseStartWeek := some week }, true,
          match previousPhase with
          | some p => decide (phaseNum < p)
          | none => false)
    else (st2, false, false)
  let st3 := seeded.1
  let psw := st3.phaseStartWeek.getD 0
  let missingPrev :=
    decide (phaseNum - 1 ≥ 1) && !(st3.phasesSubmitted.contains (phaseNum - 1))
  (st3,
    { r with
      weeks_in_phase := max 1 (week - psw + 1)
      weeks_on_contribution := week - csw + 1
      contribution_start_week := csw
      phase_changed_this_week := seeded.2.1
      illogical_phase_change := seeded.2.2
      missing_previous_phase := missingPrev })

/-- The phase-tracking loop over the week-sorted submissions. -/
def phasePassAux (st : PhaseState) : List StudentRecord → List StudentRecord
  | [] => []
  | r :: rs =>
    let p := phaseStep st r
    p.2 :: phasePassAux p.1 rs

/-- The cumulative submission counter (lines 693-701): +1 per true
submission-flag variant, running total assigned to each record. -/
def cumulativeAux (count : Int) : List StudentRecord → List StudentRecord
  | [] => []
  | r :: rs =>
    let count1 := count + (if r.wed_submitted then 1 else 0)
    let count2 := count1 + (if r.sun_submitted then 1 else 0)
    { r with submission_count_cumulative := count2 } :: cumulativeAux count2 rs

/-- The `week_to_sun_submitted` map (lines 704-707): last write per week
wins, matching Python dict assignment over the week-sorted list. -/
def weekSunMap (subs : List StudentRecord) : Int → Option Bool :=
  subs.foldl (fun m r => fun w => if w = r.week then some r.sun_submitted else m w)
    (fun _ => none)

/-- The secondary component of `submission_sort_key` (lines 710-714):
Wednesday submissions sort before the rest. -/
def subType (r : StudentRecord) : Nat :=
  if r.wed_submitted then 0 else 1

/-- Positions of the week-sorted list, stably sorted by
`submission_sort_key` (line 716).  The index tie-break encodes the
stability of Python's `sorted`: equal keys keep list order. -/
def sortPositions (l : List StudentRecord) : List Nat :=
  List.insertionSort
    (fun i j =>
      let a := l.getD i default
      let b := l.getD j default
      a.week < b.week ∨
        (a.week = b.week ∧ (subType a < subType b ∨ (subType a = subType b ∧ i ≤ j))))
    (List.range l.length)

/-- The backward scan of lines 728-742 counting misses over weeks
`k, k-1, ..., 1`: a week whose map entry is a Sunday submission stops the
scan; a missed or absent week counts 1 and continues. -/
def missesFromNat (m : Int → Option Bool) : Nat → Int
  | 0 => 0
  | k + 1 =>
    match m ((k : Int) + 1) with
    | some true => 0
    | some false => 1 + missesFromNat m k
    | none => 1 + missesFromNat m k

/-- The consecutive-miss attribution loop (lines 720-748) over positions
in `submission_sort_key` order: a record past the high-water mark scans
backward from `week - 1`; a positive count raises the mark to its week.
Returns the per-position assignments. -/
def missAssign (m : Int → Option Bool) (weekAt : Nat → Int) :
    List Nat → Int → List (Nat × Int)
  | [], _ => []
  | p :: ps, lastAccountedWeek =>
    let currentWeek := weekAt p
    if currentWeek > lastAccountedWeek then
      let c := missesFromNat m (currentWeek - 1).toNat
      (p, c) :: missAssign m weekAt ps (if c > 0 then currentWeek else lastAccountedWeek)
    else
      (p, 0) :: missAssign m weekAt ps lastAccountedWeek

/-- Write the per-position miss counts back into the week-sorted list
(`submission.consecutive_misses = consecutive_misses`, line 748); every
position is assigned, so the `getD` fallback is unreachable. -/
def applyMissAux (assign : List (Nat × Int)) (i : Nat) : List StudentRecord → List StudentRecord
  | [] => []
  | r :: rs =>
    { r with consecutive_misses :=
        ((assign.find? (fun pv => pv.1 == i)).map (fun pv => pv.2)).getD r.consecutive_misses }
      :: applyMissAux assign (i + 1) rs

/-- Running context of the issue-tracking loop (lines 750-754). -/
structure IssueState where
  previousIssueUrl : Option String := none
  previousContribution : Option Int := none
  previousWeek : Option Int := none
  issueChangeWeek : Int := 0
  deriving DecidableEq, Repr

/-- One iteration of the issue-tracking loop (lines 756-798). -/
def issueStep (st : IssueState) (r : StudentRecord) : IssueState × StudentRecord :=
  let week := r.week
  let currentIssue := if r.issue_url ≠ "" then pyStrip r.issue_url else ""
  let contribNum := r.contribution_num
  let issueUrlPreviousWeek :=
    if st.previousWeek = some (week - 1) then st.previousIssueUrl.getD "" else ""
  let newContribution :=
    st.previousContribution ≠ none ∧ some contribNum ≠ st.previousContribution
  let st1 :=
    if st.previousContribution ≠ none ∧ some contribNum ≠ st.previousContribution then
      { st with issueChangeWeek := 0, previousIssueUrl := none }
    else st
  let changedTriple : Bool × Bool × Int :=
    match st1.previousIssueUrl with
    | some prev =>
      if prev ≠ "" ∧ currentIssue ≠ "" ∧ currentIssue ≠ prev then
        (true, decide (some contribNum = st.previousContribution), week)
      else (false, false, st1.issueChangeWeek)
    | none => (false, false, st1.issueChangeWeek)
  let icw := changedTriple.2.2
  let stOut : IssueState :=
    { previousIssueUrl := (if currentIssue ≠ "" then some currentIssue else st1.previousIssueUrl)
      previousContribution := some contribNum
      previousWeek := some week
      issueChangeWeek := icw }
  (stOut,
    { r with
      issue_url_previous_week := issueUrlPreviousWeek
      new_contribution_detected := decide newContribution
      issue_changed := changedTriple.1
      issue_swap_detected := changedTriple.2.1
      issue_change_week := (if icw > 0 then icw else 0) })

/-- The issue-tracking loop over the week-sorted submissions. -/
def issuePassAux (st : IssueState) : List StudentRecord → List StudentRecord
  | [] => []
  | r :: rs =>
    let p := issueStep st r
    p.2 :: issuePassAux p.1 rs

/-- Python's stable `member_submissions.sort(key=lambda s: s.week)`
(line 616). -/
def sortByWeek (l : List StudentRecord) : List StudentRecord :=
  List.insertionSort (fun a b => a.week ≤ b.week) l

/-- All per-participant passes of `_calculate_weeks_in_phase`
(lines 614-798) over the already week-sorted submission list: phase
tracking, cumulative submissions, the two-pass consecutive-miss
computation (map build, subkey sort, backward scans), and issue tracking.
The passes mutate the same Python objects; positions in the week-sorted
list model object identity, and the miss pass writes through those
positions. -/
def processSorted (sorted : List StudentRecord) : List StudentRecord :=
  let s1 := phasePassAux {} sorted
  let s2 := cumulativeAux 0 s1
  let m := weekSunMap s2
  let order := sortPositions s2
  let assign := missAssign m (fun p => (s2.getD p default).week) order 0
  let s3 := applyMissAux assign 0 s2
  issuePassAux {} s3

/-- One participant's records, as processed by the timeline engine:
sorted ascending by week (stable), then all derived-field passes. -/
def processParticipantRecords (l : List StudentRecord) : List StudentRecord :=
  processSorted (sortByWeek l)

-- ==================== Grouping and assembly ====================

/-- The grouping key: `str(student.member_id).strip()` (line 607). -/
def groupKey (s : StudentRecord) : String :=
  pyStrip s.member_id

/-- The students list paired with positions, modelling Python object
identity across the in-place mutations of `_calculate_weeks_in_phase`. -/
def indexedStudents (students : List StudentRecord) : List (Nat × StudentRecord) :=
  (List.range students.length).map (fun i => (i, students.getD i default))

/-- One member's processed group: the positions of the students whose
stripped member id equals `key` (in input order, line 605-611), stably
week-sorted (line 616), run through all timeline passes, and re-paired
with their original positions.  `processSorted` rewrites each position of
the week-sorted list in place, so the zip matches Python's mutation of
the sorted objects. -/
def processedGroup (students : List StudentRecord) (key : String) :
    List (Nat × StudentRecord) :=
  let g := (indexedStudents students).filter (fun p => groupKey p.2 == key)
  let sg := List.insertionSort (fun a b : Nat × StudentRecord => a.2.week ≤ b.2.week) g
  (sg.map (fun p => p.1)).zip (processSorted (sg.map (fun p => p.2)))

/-- The whole `_calculate_weeks_in_phase` method (lines 597-798) over the
full student list: students with an empty stripped member id are never
grouped, hence never touched (lines 606-611); every other student takes
the value its object received in its group's processing.  Groups are
disjoint and processed independently, so per-student recomputation of the
group equals Python's one-pass dict processing. -/
def calculateWeeksInPhaseAll (students : List StudentRecord) : List StudentRecord :=
  (List.range students.length).map (fun i =>
    let s := students.getD i default
    if groupKey s = "" then s
    else
      match (processedGroup students (groupKey s)).find? (fun q => q.1 == i) with
      | some q => q.2
      | none => s)

-- ==================== Derived fields and classifier ====================

/-- The deliverables-expected step function of phase number with the
dataclass default 0 as base: 1 (phase ≥ 1) + 2 (phase ≥ 2) + 2 (phase ≥ 3)
+ 1 (phase ≥ 4). -/
def deliverablesExpected (p : Nat) : Int :=
  let d1 : Int := if 1 ≤ p then 1 else 0
  let d2 := if 2 ≤ p then d1 + 2 else d1
  let d3 := if 3 ≤ p then d2 + 2 else d2
  if 4 ≤ p then d3 + 1 else d3

/-- The per-student body of `_calculate_derived_fields` (lines 563-595):
deliverables expected (sequential `if phase_num >= k` chain, lines
567-574, leaving the prior field value when the phase number is 0),
deliverables complete, weeks remaining, timeline type. -/
def calcDerivedRecord (r : StudentRecord) : StudentRecord :=
  let phaseNum := getPhaseNumber r.current_phase
  let de0 := r.deliverables_expected
  let de1 := if 1 ≤ phaseNum then 1 else de0
  let de2 := if 2 ≤ phaseNum then de1 + 2 else de1
  let de3 := if 3 ≤ phaseNum then de2 + 2 else de2
  let de4 := if 4 ≤ phaseNum then de3 + 1 else de3
  let dc : Int :=
    (if r.why_chosen_complete then 1 else 0) + (if r.reproduction_complete then 1 else 0) +
      (if r.solution_complete then 1 else 0) + (if r.implementation_complete then 1 else 0) +
      (if r.testing_complete then 1 else 0) + (if r.feedback_complete then 1 else 0)
  let wr := max 0 (8 - r.week)
  let tt :=
    if wr < 3 ∧ phaseNum < 3 then "Compressed"
    else if wr < 2 ∧ phaseNum < 4 then "Critical"
    else "Standard"
  { r with
    deliverables_expected := de4
    deliverables_complete := dc
    weeks_remaining := wr
    timeline_type := tt }

/-- The `_calculate_derived_fields` method (lines 558-595): the timeline
engine first, then the per-student derived values. -/
def calculateDerivedFieldsAll (students : List StudentRecord) : List StudentRecord :=
  (calculateWeeksInPhaseAll students).map calcDerivedRecord

/-- The per-student body of `_calculate_grade_status` (lines 814-891):
the ordered AT-RISK chain, then (only when not at risk) the ordered
FLAGGED chain; the status emoji string and the intervention code of the
first matching rule. -/
def calcGradeStatus (r : StudentRecord) : StudentRecord :=
  let phaseNum := getPhaseNumber r.current_phase
  let atRiskPair : Bool × String :=
    if r.wed_submitted = false ∧ r.sun_submitted = false then (true, "MISSING_BOTH")
    else if 6 ≤ r.week ∧ phaseNum ≤ 2 then (true, "PHASE_CRITICAL")
    else if r.weeks_remaining < 2 ∧ phaseNum < 4 then (true, "PHASE_CRITICAL")
    else if r.blocked = true ∧ r.blocker_desc ≠ "" then (true, "STALLED")
    else (false, "")
  let flaggedPair : Bool × String :=
    if atRiskPair.1 then (false, atRiskPair.2)
    else if r.missing_previous_phase then (true, "MISSING_PREVIOUS_PHASE")
    else if r.illogical_phase_change then (true, "ILLOGICAL_PHASE_CHANGE")
    else if phaseNum = 3 ∧ r.mr_url ≠ "" ∧ pyStrip r.mr_url ≠ "" then
      (true, "INCORRECT_PHASE_URL")
    else if r.consecutive_misses > 0 then (true, "MISSING_PREVIOUS_SUBMISSION")
    else if r.deliverables_complete < r.deliverables_expected then
      (true, "MISSING_DELIVERABLES")
    else if r.days_since_commit > 7 then (true, "NO_ACTIVITY")
    else if r.timeline_type = "Compressed" then (true, "TIMELINE_COMPRESSED")
    else (false, atRiskPair.2)
  { r with
    grade_status :=
      (if atRiskPair.1 then "🔴 AT RISK"
        else if flaggedPair.1 then "🟡 FLAGGED"
        else "🟢 ON TRACK")
    intervention_type := flaggedPair.2 }

/-- Derived fields followed by grade status, as called from `process`
(lines 325-328): the fully classified record set. -/
def processStudents (students : List StudentRecord) : List StudentRecord :=
  (calculateDerivedFieldsAll students).map calcGradeStatus

-- ==================== Report emitter ====================

/-- The at-risk sort key (lines 1008-1009):
`priority_order.get(intervention_type, 99)`. -/
def interventionPriority (s : StudentRecord) : Nat :=
  if s.intervention_type = "MISSING_BOTH" then 0
  else if s.intervention_type = "PHASE_CRITICAL" then 1
  else if s.intervention_type = "STALLED" then 2
  else 99

/-- Tab 2 record set (lines 1004-1009): AT RISK students, stably sorted by
intervention priority. -/
def atRiskSheet (students : List StudentRecord) : List StudentRecord :=
  List.insertionSort (fun a b => interventionPriority a ≤ interventionPriority b)
    (students.filter (fun s => s.grade_status == "🔴 AT RISK"))

/-- Tab 3 record set (lines 1064-1068): FLAGGED students, stably sorted by
weeks-in-phase descending (`reverse=True` keeps ties in list order). -/
def flaggedSheet (students : List StudentRecord) : List StudentRecord :=
  List.insertionSort (fun a b => a.weeks_in_phase ≥ b.weeks_in_phase)
    (students.filter (fun s => s.grade_status == "🟡 FLAGGED"))

/-- Tab 4 record set (lines 1114-1118): ON TRACK students, stably sorted by
week descending. -/
def onTrackSheet (students : List StudentRecord) : List StudentRecord :=
  List.insertionSort (fun a b => a.week ≥ b.week)
    (students.filter (fun s => s.grade_status == "🟢 ON TRACK"))

/-- The statistics of Tab 5 (lines 1166-1187). -/
structure WeeklySummary where
  total : Nat
  onTrack : Nat
  flagged : Nat
  atRisk : Nat
  sunSubmitted : Nat
  wedSubmitted : Nat
  phase1 : Nat
  phase2 : Nat
  phase3 : Nat
  phase4 : Nat
  mrSubmitted : Nat
  mrMerged : Nat
  interventionsNeeded : Nat
  currentWeek : Int
  deriving DecidableEq, Repr

/-- Python `max(s.week for s in students) if students else 0`. -/
def maxWeekOf (students : List StudentRecord) : Int :=
  match students.map (fun s => s.week) with
  | [] => 0
  | w :: ws => ws.foldl max w

/-- The summary-dashboard statistics (lines 1166-1187). -/
def buildSummary (students : List StudentRecord) : WeeklySummary :=
  { total := students.length
    onTrack := (students.filter (fun s => s.grade_status == "🟢 ON TRACK")).length
    flagged := (students.filter (fun s => s.grade_status == "🟡 FLAGGED")).length
    atRisk := (students.filter (fun s => s.grade_status == "🔴 AT RISK")).length
    sunSubmitted := (students.filter (fun s => s.sun_submitted)).length
    wedSubmitted := (students.filter (fun s => s.wed_submitted)).length
    phase1 := (students.filter (fun s => getPhaseNumber s.current_phase == 1)).length
    phase2 := (students.filter (fun s => getPhaseNumber s.current_phase == 2)).length
    phase3 := (students.filter (fun s => getPhaseNumber s.current_phase == 3)).length
    phase4 := (students.filter (fun s => getPhaseNumber s.current_phase == 4)).length
    mrSubmitted := (students.filter (fun s => s.mr_url ≠ "")).length
    mrMerged := (students.filter (fun s => strContains (pyLower s.mr_status) "merged")).length
    interventionsNeeded := (students.filter (fun s => s.intervention_type ≠ "")).length
    currentWeek := maxWeekOf students }

/-- The report workbook: the record sets of the five sheets in fixed
order (styling, headers and cell projection are presentation only and not
modelled).  Tab 1 carries every record in input order. -/
structure Workbook where
  masterTracker : List StudentRecord
  atRisk : List StudentRecord
  flagged : List StudentRecord
  onTrack : List StudentRecord
  weeklySummary : WeeklySummary
  deriving DecidableEq, Repr

/-- Workbook construction from the classified record set
(lines 331-341 together with the tab builders). -/
def buildWorkbook (students : List StudentRecord) : Workbook :=
  { masterTracker := students
    atRisk := atRiskSheet students
    flagged := flaggedSheet students
    onTrack := onTrackSheet students
    weeklySummary := buildSummary students }

-- ==================== Processing result and entry point ====================

/-- Modelled from the spec: the `ProcessingResult` dataclass lives in
`services/file_processor.py`, which is not among the sources; spec §6
describes the collaborator contract as "a result carrying
success/failure, output bytes or an error message, a suggested output
filename, and a row-processed count", and spec §8 fixes the failure
defaults: "Empty input table → input error, zero rows processed, no
output bytes".  The output bytes are represented by the workbook value
they serialize. -/
structure ProcessingResult where
  success : Bool
  errorMessage : Option String := none
  outputData : Option Workbook := none
  outputFilename : Option String := none
  rowsProcessed : Nat := 0
  deriving DecidableEq, Repr

/-- The `process` method (lines 276-359) from the parsed-row boundary on
(byte decoding, BOM handling and delimiter sniffing are upstream of the
parsed table and not modelled; `masterRows` is the parsed roster table
when the `master_data` option is supplied and non-empty).  Zero parsed
data rows fail fast with the input error before any lookup, transform or
output construction. -/
def processTracker (rawRows : List Row) (masterRows : Option (List Row)) : ProcessingResult :=
  if rawRows.isEmpty then
    { success := false, errorMessage := some "CSV file is empty" }
  else
    let masterLookup :=
      match masterRows with
      | some rs => buildMasterDiscordLookup rs
      | none => []
    let discordLookup := mergeLookups masterLookup (buildDiscordLookup rawRows)
    let students := processStudents (transformRecords discordLookup rawRows)
    { success := true
      errorMessage := none
      outputData := some (buildWorkbook students)
      outputFilename := some "tracker_report.xlsx"
      rowsProcessed := students.length }

-- ==================== Claim C1 ====================

/-- Claim C1 (code behaviour at the failing input): the contribution-number
coercion maps the cell value "No Contribution" to 1, not to the 0 the
claim states — `"Contribution" in value` matches first, the last
whitespace token is "Contribution", `int("Contribution")` raises and the
bare `except` assigns 1, so the explicit `"No Contribution" → 0` branch
is dead.  The matched-pattern and unparsable-default parts of the claim
do hold, as the second and third conjuncts show. -/
theorem c1_no_contribution_yields_one :
    parseContributionNum "No Contribution" = 1 ∧
    parseContributionNum "Contribution 2" = 2 ∧
    parseContributionNum "banana" = 1 :=
  ⟨by decide, by decide, by decide⟩

-- ==================== Claim C8 ====================

/-- Claim C8: an input whose parsed table has zero data rows yields a
failure result with a descriptive error message, no output workbook and
zero rows processed — regardless of the roster option, and before any
lookup or transformation runs. -/
theorem c8_empty_table_fails_fast (masterRows : Option (List Row)) :
    processTracker [] masterRows =
      { success := false
        errorMessage := some "CSV file is empty"
        outputData := none
        outputFilename := none
        rowsProcessed := 0 } := rfl

-- ==================== Claim C5 ====================

/-- Claim C5: `timeline_type` is "Compressed" iff `weeks_remaining < 3`
and phase < 3; otherwise "Critical" iff `weeks_remaining < 2` and
phase < 4; otherwise "Standard"; on the overlap of the first two
conditions the result is "Compressed". -/
theorem c5_timeline_type (r : StudentRecord) :
    ((calcDerivedRecord r).timeline_type = "Compressed" ↔
      (calcDerivedRecord r).weeks_remaining < 3 ∧ getPhaseNumber r.current_phase < 3) ∧
    (¬((calcDerivedRecord r).weeks_remaining < 3 ∧ getPhaseNumber r.current_phase < 3) →
      ((calcDerivedRecord r).timeline_type = "Critical" ↔
        (calcDerivedRecord r).weeks_remaining < 2 ∧ getPhaseNumber r.current_phase < 4)) ∧
    (¬((calcDerivedRecord r).weeks_remaining < 3 ∧ getPhaseNumber r.current_phase < 3) →
      ¬((calcDerivedRecord r).weeks_remaining < 2 ∧ getPhaseNumber r.current_phase < 4) →
      (calcDerivedRecord r).timeline_type = "Standard") ∧
    (((calcDerivedRecord r).weeks_remaining < 3 ∧ getPhaseNumber r.current_phase < 3) →
      ((calcDerivedRecord r).weeks_remaining < 2 ∧ getPhaseNumber r.current_phase < 4) →
      (calcDerivedRecord r).timeline_type = "Compressed") := by
  have hne1 : ("Critical" : String) ≠ "Compressed" := by decide
  have hne2 : ("Standard" : String) ≠ "Compressed" := by decide
  have hne3 : ("Standard" : String) ≠ "Critical" := by decide
  simp only [calcDerivedRecord]
  split_ifs with h1 h2 <;> simp_all

/-- Witness for claim C5 at a concrete record: week 7 in phase 1 has one
week remaining and is Compressed. -/
theorem c5_timeline_type_witness :
    (calcDerivedRecord { week := 7, current_phase := "Phase 1" }).timeline_type = "Compressed" :=
  (c5_timeline_type { week := 7, current_phase := "Phase 1" }).1.mpr (by decide)

-- ==================== Claim C6 ====================

/-- Claim C6: the expected-deliverables step function is monotone
non-decreasing in the phase number and takes the values 1, 3, 5, 6 at
phases 1, 2, 3, 4; a record whose `deliverables_expected` holds the
dataclass default 0 receives exactly this step function of its phase
number from the derived-field pass. -/
theorem c6_deliverables_expected_step :
    (∀ p q : Nat, p ≤ q → deliverablesExpected p ≤ deliverablesExpected q) ∧
    deliverablesExpected 1 = 1 ∧ deliverablesExpected 2 = 3 ∧
    deliverablesExpected 3 = 5 ∧ deliverablesExpected 4 = 6 ∧
    (∀ r : StudentRecord, r.deliverables_expected = 0 →
      (calcDerivedRecord r).deliverables_expected =
        deliverablesExpected (getPhaseNumber r.current_phase)) := by
  refine ⟨?_, by decide, by decide, by decide, by decide, ?_⟩
  · intro p q hpq
    simp only [deliverablesExpected]
    split_ifs <;> omega
  · intro r h0
    simp only [calcDerivedRecord, deliverablesExpected, h0]

/-- Witness for claim C6: monotonicity applied at phases 1 ≤ 4 and the
record-level equality at a concrete phase-2 record. -/
theorem c6_deliverables_expected_witness :
    deliverablesExpected 1 ≤ deliverablesExpected 4 ∧
    (calcDerivedRecord { current_phase := "Phase 2" }).deliverables_expected =
      deliverablesExpected 2 :=
  ⟨c6_deliverables_expected_step.1 1 4 (by decide),
    (c6_deliverables_expected_step.2.2.2.2.2 { current_phase := "Phase 2" } rfl).trans
      (by decide)⟩

-- ==================== Claim C3 ====================

/-- First AT-RISK rule: both submission flags false. -/
theorem calcGradeStatus_missing_both (r : StudentRecord)
    (h1 : r.wed_submitted = false ∧ r.sun_submitted = false) :
    calcGradeStatus r =
      { r with grade_status := "🔴 AT RISK", intervention_type := "MISSING_BOTH" } := by
  simp [calcGradeStatus, h1]

/-- Second AT-RISK rule: week ≥ 6 in phase ≤ 2. -/
theorem calcGradeStatus_phase_critical_early (r : StudentRecord)
    (h1 : ¬(r.wed_submitted = false ∧ r.sun_submitted = false))
    (h2 : 6 ≤ r.week ∧ getPhaseNumber r.current_phase ≤ 2) :
    calcGradeStatus r =
      { r with grade_status := "🔴 AT RISK", intervention_type := "PHASE_CRITICAL" } := by
  simp [calcGradeStatus, h1, h2]

/-- Third AT-RISK rule: under two weeks remaining before phase 4. -/
theorem calcGradeStatus_phase_critical_late (r : StudentRecord)
    (h1 : ¬(r.wed_submitted = false ∧ r.sun_submitted = false))
    (h2 : ¬(6 ≤ r.week ∧ getPhaseNumber r.current_phase ≤ 2))
    (h3 : r.weeks_remaining < 2 ∧ getPhaseNumber r.current_phase < 4) :
    calcGradeStatus r =
      { r with grade_status := "🔴 AT RISK", intervention_type := "PHASE_CRITICAL" } := by
  simp [calcGradeStatus, h1, h2, h3]

/-- Fourth AT-RISK rule: blocked with a non-empty reason. -/
theorem calcGradeStatus_stalled (r : StudentRecord)
    (h1 : ¬(r.wed_submitted = false ∧ r.sun_submitted = false))
    (h2 : ¬(6 ≤ r.week ∧ getPhaseNumber r.current_phase ≤ 2))
    (h3 : ¬(r.weeks_remaining < 2 ∧ getPhaseNumber r.current_phase < 4))
    (h4 : r.blocked = true ∧ r.blocker_desc ≠ "") :
    calcGradeStatus r =
      { r with grade_status := "🔴 AT RISK", intervention_type := "STALLED" } := by
  simp [calcGradeStatus, h1, h2, h3, h4]

/-- Claim C3: whenever any AT-RISK condition holds — both submission
flags false; or week ≥ 6 with phase ≤ 2; or weeks remaining < 2 with
phase < 4; or blocked with a non-empty reason — the classifier assigns
the AT RISK tier (irrespective of any FLAGGED condition, none of which is
assumed about `r`), and the intervention code is that of the first
matching rule in the fixed evaluation order; reasons are never
combined. -/
theorem c3_at_risk_priority (r : StudentRecord)
    (h : (r.wed_submitted = false ∧ r.sun_submitted = false) ∨
      (6 ≤ r.week ∧ getPhaseNumber r.current_phase ≤ 2) ∨
      (r.weeks_remaining < 2 ∧ getPhaseNumber r.current_phase < 4) ∨
      (r.blocked = true ∧ r.blocker_desc ≠ "")) :
    (calcGradeStatus r).grade_status = "🔴 AT RISK" ∧
    (calcGradeStatus r).intervention_type =
      (if r.wed_submitted = false ∧ r.sun_submitted = false then "MISSING_BOTH"
        else if 6 ≤ r.week ∧ getPhaseNumber r.current_phase ≤ 2 then "PHASE_CRITICAL"
        else if r.weeks_remaining < 2 ∧ getPhaseNumber r.current_phase < 4 then "PHASE_CRITICAL"
        else "STALLED") := by
  by_cases h1 : r.wed_submitted = false ∧ r.sun_submitted = false
  · rw [calcGradeStatus_missing_both r h1, if_pos h1]
    exact ⟨rfl, rfl⟩
  by_cases h2 : 6 ≤ r.week ∧ getPhaseNumber r.current_phase ≤ 2
  · rw [calcGradeStatus_phase_critical_early r h1 h2, if_neg h1, if_pos h2]
    exact ⟨rfl, rfl⟩
  by_cases h3 : r.weeks_remaining < 2 ∧ getPhaseNumber r.current_phase < 4
  · rw [calcGradeStatus_phase_critical_late r h1 h2 h3, if_neg h1, if_neg h2, if_pos h3]
    exact ⟨rfl, rfl⟩
  by_cases h4 : r.blocked = true ∧ r.blocker_desc ≠ ""
  · rw [calcGradeStatus_stalled r h1 h2 h3 h4, if_neg h1, if_neg h2, if_neg h3]
    exact ⟨rfl, rfl⟩
  · rcases h with h' | h' | h' | h' <;> exact absurd h' (by assumption)

/-- Witness for claim C3: a week-6 phase-1 record that also satisfies a
FLAGGED condition (missing deliverables) is nevertheless AT RISK with the
code of the first matching AT-RISK rule. -/
theorem c3_at_risk_priority_witness :
    (calcGradeStatus
        { week := 6, current_phase := "Phase 1", wed_submitted := true,
          sun_submitted := true, deliverables_expected := 1 }).grade_status =
      "🔴 AT RISK" ∧
    (calcGradeStatus
        { week := 6, current_phase := "Phase 1", wed_submitted := true,
          sun_submitted := true, deliverables_expected := 1 }).intervention_type =
      "PHASE_CRITICAL" := by
  have h := c3_at_risk_priority
    { week := 6, current_phase := "Phase 1", wed_submitted := true,
      sun_submitted := true, deliverables_expected := 1 }
    (Or.inr (Or.inl (by decide)))
  exact ⟨h.1, h.2.trans (by decide)⟩

-- ==================== Claim C4 ====================

/-- Claim C4: on the first record of a contribution (its contribution
number differs from the tracked one), the engine seeds the trackers: the
contribution starts at this record's week; a phase-1 record starts its
phase at the contribution start week; a record whose phase number p
exceeds 1 gets `contribution_start_week + (p - 1)` clamped into
`[contribution_start_week, week]` (both ends equal this record's week
here); and no phase-change flag is raised. -/
theorem c4_first_record_seeding (st : PhaseState) (r : StudentRecord)
    (h : some r.contribution_num ≠ st.currentContribution) :
    (phaseStep st r).1.contributionStartWeek = some r.week ∧
    (phaseStep st r).2.contribution_start_week = r.week ∧
    (getPhaseNumber r.current_phase = 1 →
      (phaseStep st r).1.phaseStartWeek = some r.week) ∧
    (1 < getPhaseNumber r.current_phase →
      (phaseStep st r).1.phaseStartWeek =
        some (min r.week
          (max r.week (r.week + ((getPhaseNumber r.current_phase : Int) - 1))))) ∧
    (phaseStep st r).2.phase_changed_this_week = false := by
  simp only [phaseStep, if_pos h]
  split_ifs <;> simp_all

/-- Witness for claim C4: the first record of contribution 2 at week 5 in
phase 3 seeds the phase start at the clamped value (= week 5) with no
change flag. -/
theorem c4_first_record_seeding_witness :
    (phaseStep {}
        { member_id := "m", week := 5, current_phase := "Phase 3",
          contribution_num := 2 }).1.phaseStartWeek = some 5 ∧
    (phaseStep {}
        { member_id := "m", week := 5, current_phase := "Phase 3",
          contribution_num := 2 }).2.phase_changed_this_week = false := by
  have h := c4_first_record_seeding {}
    { member_id := "m", week := 5, current_phase := "Phase 3", contribution_num := 2 }
    (by decide)
  exact ⟨(h.2.2.2.1 (by decide)).trans (by decide), h.2.2.2.2⟩

-- ==================== Claim C2: counterexample ====================

/-- Claim C2 fails on the code in both directions it quantifies over.
First conjunct: a single record at week 3 whose own second-variant
(Sunday) flag is true still receives `consecutive_misses = 2` — the
backward scan starts at week − 1 and never consults the record's own
flag.  Second conjunct: a participant holding a week-1 record with the
Sunday flag true (overwritten in the week map by a later week-1 record
with the flag false) gets `consecutive_misses = 1` on the week-2 record
even though a record for the immediately preceding week has the flag
true. -/
theorem c2_counterexample :
    (processParticipantRecords
        [{ member_id := "m", week := 3, sun_submitted := true }]).map
      (fun r => (r.sun_submitted, r.consecutive_misses)) = [(true, 2)] ∧
    (processParticipantRecords
        [{ member_id := "m", week := 1, sun_submitted := true },
          { member_id := "m", week := 1, sun_submitted := false },
          { member_id := "m", week := 2 }]).map
      (fun r => (r.week, r.sun_submitted, r.consecutive_misses)) =
      [(1, true, 0), (1, false, 0), (2, false, 1)] :=
  ⟨by decide, by decide⟩

-- ==================== Claim C7: counterexample ====================

/-- Claim C7 fails on the code: two permutations of the same two-record
bag (equal weeks, phases 1 and 2) yield different derived fields for the
corresponding records.  The stable week sort preserves the input order of
the tied records, so whichever record comes first seeds the phase
tracking: the phase-1 record has `phase_changed_this_week = false` in the
first run but `true` (and an illogical-regression flag) in the second. -/
theorem c7_counterexample :
    (processParticipantRecords
        [{ member_id := "m", week := 1, current_phase := "Phase 1" },
          { member_id := "m", week := 1, current_phase := "Phase 2" }]).map
      (fun r => (r.current_phase, r.phase_changed_this_week, r.illogical_phase_change)) =
      [("Phase 1", false, false), ("Phase 2", true, false)] ∧
    (processParticipantRecords
        [{ member_id := "m", week := 1, current_phase := "Phase 2" },
          { member_id := "m", week := 1, current_phase := "Phase 1" }]).map
      (fun r => (r.current_phase, r.phase_changed_this_week, r.illogical_phase_change)) =
      [("Phase 2", false, false), ("Phase 1", true, true)] :=
  ⟨by decide, by decide⟩

-- ==================== Claim C7: determinism on distinct weeks ====================

/-- The week key order of line 616, as a named relation. -/
def weekLE (a b : StudentRecord) : Prop := a.week ≤ b.week

instance : DecidableRel weekLE := fun a b => inferInstanceAs (Decidable (a.week ≤ b.week))

instance : IsTotal StudentRecord weekLE := ⟨fun a b => le_total a.week b.week⟩

instance : IsTrans StudentRecord weekLE := ⟨fun _ _ _ h1 h2 => le_trans h1 h2⟩

/-- Strict week order; vacuously antisymmetric, which makes week-sorted
lists with pairwise-distinct weeks unique up to equality. -/
def weekLT (a b : StudentRecord) : Prop := a.week < b.week

instance : IsAntisymm StudentRecord weekLT := ⟨fun _ _ h h2 => absurd h2 (lt_asymm h)⟩

/-- On a bag with pairwise-distinct week numbers, the stable week sort is
a function of the multiset alone. -/
theorem sortByWeek_eq_of_perm (l₁ l₂ : List StudentRecord) (hp : l₁.Perm l₂)
    (hd : l₁.Pairwise (fun a b => a.week ≠ b.week)) :
    sortByWeek l₁ = sortByWeek l₂ := by
  have p1 : (sortByWeek l₁).Perm l₁ := List.perm_insertionSort _ _
  have p2 : (sortByWeek l₂).Perm l₂ := List.perm_insertionSort _ _
  have hperm : (sortByWeek l₁).Perm (sortByWeek l₂) := p1.trans (hp.trans p2.symm)
  have hs1 : List.Sorted weekLE (sortByWeek l₁) := List.sorted_insertionSort _ _
  have hs2 : List.Sorted weekLE (sortByWeek l₂) := List.sorted_insertionSort _ _
  have hsymm : ∀ {a b : StudentRecord}, a.week ≠ b.week → b.week ≠ a.week :=
    fun h => Ne.symm h
  have hd1 : (sortByWeek l₁).Pairwise (fun a b => a.week ≠ b.week) :=
    (p1.pairwise_iff hsymm).mpr hd
  have hd2 : (sortByWeek l₂).Pairwise (fun a b => a.week ≠ b.week) :=
    (p2.pairwise_iff hsymm).mpr ((hp.pairwise_iff hsymm).mp hd)
  have hlt1 : List.Sorted weekLT (sortByWeek l₁) :=
    (hs1.and hd1).imp (fun hab => lt_of_le_of_ne hab.1 hab.2)
  have hlt2 : List.Sorted weekLT (sortByWeek l₂) :=
    (hs2.and hd2).imp (fun hab => lt_of_le_of_ne hab.1 hab.2)
  exact List.eq_of_perm_of_sorted hperm hlt1 hlt2

/-- Claim C7, amended: the timeline engine is a function of the unordered
bag of one participant's records provided no two of them share a week
number — every pass after the initial stable week sort is a function of
the sorted list. -/
theorem c7_determinism_distinct_weeks (l₁ l₂ : List StudentRecord) (hp : l₁.Perm l₂)
    (hd : l₁.Pairwise (fun a b => a.week ≠ b.week)) :
    processParticipantRecords l₁ = processParticipantRecords l₂ := by
  unfold processParticipantRecords
  rw [sortByWeek_eq_of_perm l₁ l₂ hp hd]

/-- Witness for the amended claim C7 at a concrete two-record bag with
distinct weeks. -/
theorem c7_determinism_witness :
    processParticipantRecords
        [{ member_id := "m", week := 1, current_phase := "Phase 1" },
          { member_id := "m", week := 2, current_phase := "Phase 2" }] =
      processParticipantRecords
        [{ member_id := "m", week := 2, current_phase := "Phase 2" },
          { member_id := "m", week := 1, current_phase := "Phase 1" }] :=
  c7_determinism_distinct_weeks _ _
    (List.Perm.swap _ _ _) (by decide)

-- ==================== Pass preservation lemmas ====================

/-- The phase pass rewrites only phase-derived fields: week and the
submission flags pass through. -/
theorem phaseStep_week (st : PhaseState) (r : StudentRecord) :
    (phaseStep st r).2.week = r.week := rfl

/-- The phase pass passes the Sunday flag through. -/
theorem phaseStep_sun (st : PhaseState) (r : StudentRecord) :
    (phaseStep st r).2.sun_submitted = r.sun_submitted := rfl

/-- Every record leaving the phase pass has `weeks_in_phase ≥ 1`: the
assignment is `max(1, week - phase_start_week + 1)`. -/
theorem phasePassAux_weeks_ge :
    ∀ (st : PhaseState) (l : List StudentRecord) (r' : StudentRecord),
      r' ∈ phasePassAux st l → 1 ≤ r'.weeks_in_phase := by
  intro st l
  induction l generalizing st with
  | nil => intro r' h; simp [phasePassAux] at h
  | cons r rs ih =>
    intro r' h
    rcases List.mem_cons.mp (by simpa [phasePassAux] using h) with heq | htail
    · rw [heq]; exact le_max_left 1 _
    · exact ih _ _ htail

/-- The week/Sunday projections of the phase pass output. -/
theorem phasePassAux_pairs (st : PhaseState) (l : List StudentRecord) :
    (phasePassAux st l).map (fun r => (r.week, r.sun_submitted)) =
      l.map (fun r => (r.week, r.sun_submitted)) := by
  induction l generalizing st with
  | nil => rfl
  | cons r rs ih => simp [phasePassAux, ih, phaseStep_week, phaseStep_sun]

/-- The week/Sunday projections of the cumulative-count pass output. -/
theorem cumulativeAux_pairs (c : Int) (l : List StudentRecord) :
    (cumulativeAux c l).map (fun r => (r.week, r.sun_submitted)) =
      l.map (fun r => (r.week, r.sun_submitted)) := by
  induction l generalizing c with
  | nil => rfl
  | cons r rs ih => simp [cumulativeAux, ih]

/-- Membership transfer through the cumulative-count pass, preserving
`weeks_in_phase`. -/
theorem cumulativeAux_mem :
    ∀ (c : Int) (l : List StudentRecord) (r' : StudentRecord),
      r' ∈ cumulativeAux c l → ∃ r ∈ l, r'.weeks_in_phase = r.weeks_in_phase := by
  intro c l
  induction l generalizing c with
  | nil => intro r' h; simp [cumulativeAux] at h
  | cons r rs ih =>
    intro r' h
    rcases List.mem_cons.mp (by simpa [cumulativeAux] using h) with heq | htail
    · exact ⟨r, List.mem_cons_self _ _, by rw [heq]⟩
    · obtain ⟨q, hq, hw⟩ := ih _ _ htail
      exact ⟨q, List.mem_cons_of_mem _ hq, hw⟩

/-- Membership transfer through the miss-assignment write-back,
preserving `weeks_in_phase`. -/
theorem applyMissAux_mem :
    ∀ (assign : List (Nat × Int)) (i : Nat) (l : List StudentRecord) (r' : StudentRecord),
      r' ∈ applyMissAux assign i l → ∃ r ∈ l, r'.weeks_in_phase = r.weeks_in_phase := by
  intro assign i l
  induction l generalizing i with
  | nil => intro r' h; simp [applyMissAux] at h
  | cons r rs ih =>
    intro r' h
    rcases List.mem_cons.mp (by simpa [applyMissAux] using h) with heq | htail
    · exact ⟨r, List.mem_cons_self _ _, by rw [heq]⟩
    · obtain ⟨q, hq, hw⟩ := ih _ _ htail
      exact ⟨q, List.mem_cons_of_mem _ hq, hw⟩

/-- The issue-tracking step rewrites only issue fields. -/
theorem issueStep_week (st : IssueState) (r : StudentRecord) :
    (issueStep st r).2.week = r.week := rfl

/-- The issue-tracking step preserves the consecutive-miss count. -/
theorem issueStep_misses (st : IssueState) (r : StudentRecord) :
    (issueStep st r).2.consecutive_misses = r.consecutive_misses := rfl

/-- The issue-tracking step preserves `weeks_in_phase`. -/
theorem issueStep_weeks (st : IssueState) (r : StudentRecord) :
    (issueStep st r).2.weeks_in_phase = r.weeks_in_phase := rfl

/-- Membership transfer through the issue pass, preserving week,
consecutive misses and `weeks_in_phase`. -/
theorem issuePassAux_mem :
    ∀ (st : IssueState) (l : List StudentRecord) (r' : StudentRecord),
      r' ∈ issuePassAux st l →
      ∃ r ∈ l, r'.week = r.week ∧ r'.consecutive_misses = r.consecutive_misses ∧
        r'.weeks_in_phase = r.weeks_in_phase := by
  intro st l
  induction l generalizing st with
  | nil => intro r' h; simp [issuePassAux] at h
  | cons r rs ih =>
    intro r' h
    rcases List.mem_cons.mp (by simpa [issuePassAux] using h) with heq | htail
    · exact ⟨r, List.mem_cons_self _ _, by rw [heq]; exact ⟨rfl, rfl, rfl⟩⟩
    · obtain ⟨q, hq, hw⟩ := ih _ _ htail
      exact ⟨q, List.mem_cons_of_mem _ hq, hw⟩

-- ==================== Week-map and miss-scan lemmas ====================

/-- The week map is a function of the week/Sunday projections alone. -/
theorem weekSunFold_congr :
    ∀ (l₁ l₂ : List StudentRecord) (m : Int → Option Bool),
      l₁.map (fun r => (r.week, r.sun_submitted)) =
        l₂.map (fun r => (r.week, r.sun_submitted)) →
      l₁.foldl (fun m r => fun w => if w = r.week then some r.sun_submitted else m w) m =
        l₂.foldl (fun m r => fun w => if w = r.week then some r.sun_submitted else m w) m := by
  intro l₁
  induction l₁ with
  | nil =>
    intro l₂ m h
    cases l₂ with
    | nil => rfl
    | cons b bs => simp at h
  | cons a as ih =>
    intro l₂ m h
    cases l₂ with
    | nil => simp at h
    | cons b bs =>
      simp only [List.map_cons, List.cons.injEq] at h
      obtain ⟨hab, hrest⟩ := h
      have hw : a.week = b.week := congrArg Prod.fst hab
      have hs : a.sun_submitted = b.sun_submitted := congrArg Prod.snd hab
      simp only [List.foldl_cons]
      rw [hw, hs]
      exact ih bs _ hrest

/-- Week-map congruence under equal week/Sunday projections. -/
theorem weekSunMap_congr (l₁ l₂ : List StudentRecord)
    (h : l₁.map (fun r => (r.week, r.sun_submitted)) =
      l₂.map (fun r => (r.week, r.sun_submitted))) :
    weekSunMap l₁ = weekSunMap l₂ :=
  weekSunFold_congr l₁ l₂ _ h

/-- The backward scan stops immediately, with count 0, on a week whose
map entry records a Sunday submission. -/
theorem missesFromNat_of_true (m : Int → Option Bool) (k : Nat)
    (h : m ((k : Int) + 1) = some true) : missesFromNat m (k + 1) = 0 := by
  unfold missesFromNat
  rw [h]

/-- Any value the miss-attribution loop pairs with a position whose
predecessor week has a true map entry is 0: either the position is within
the accounted high-water mark (0 by the else branch), or the scan stops at
its first step. -/
theorem missAssign_val_zero (m : Int → Option Bool) (weekAt : Nat → Int) :
    ∀ (ps : List Nat) (acc : Int) (p : Nat) (v : Int),
      (p, v) ∈ missAssign m weekAt ps acc → m (weekAt p - 1) = some true → v = 0 := by
  intro ps
  induction ps with
  | nil => intro acc p v hmem _; simp [missAssign] at hmem
  | cons q qs ih =>
    intro acc p v hmem hm
    by_cases hgt : weekAt q > acc
    · rw [show missAssign m weekAt (q :: qs) acc =
          (q, missesFromNat m (weekAt q - 1).toNat) ::
            missAssign m weekAt qs
              (if missesFromNat m (weekAt q - 1).toNat > 0 then weekAt q else acc)
          from by rw [missAssign, if_pos hgt]] at hmem
      rcases List.mem_cons.mp hmem with heq | htail
      · have hpq : p = q := congrArg Prod.fst heq
        have hvm : v = missesFromNat m (weekAt q - 1).toNat := congrArg Prod.snd heq
        subst hpq
        rcases le_or_lt (weekAt p - 1) 0 with hle | hpos
        · rw [hvm, Int.toNat_of_nonpos hle]
          rfl
        · have hn : ((weekAt p - 1).toNat : Int) = weekAt p - 1 :=
            Int.toNat_of_nonneg (le_of_lt hpos)
          obtain ⟨k, hk⟩ : ∃ k, (weekAt p - 1).toNat = k + 1 :=
            ⟨(weekAt p - 1).toNat - 1, by omega⟩
          rw [hvm, hk]
          apply missesFromNat_of_true
          rw [show ((k : Int) + 1) = weekAt p - 1 from by rw [← hn, hk]; push_cast; ring]
          exact hm
      · exact ih _ p v htail hm
    · rw [show missAssign m weekAt (q :: qs) acc =
          (q, 0) :: missAssign m weekAt qs acc
          from by rw [missAssign, if_neg hgt]] at hmem
      rcases List.mem_cons.mp hmem with heq | htail
      · exact congrArg Prod.snd heq
      · exact ih _ p v htail hm

/-- Every position of the iteration order receives an assignment. -/
theorem missAssign_covers (m : Int → Option Bool) (weekAt : Nat → Int) :
    ∀ (ps : List Nat) (acc : Int) (p : Nat), p ∈ ps →
      ∃ v, (p, v) ∈ missAssign m weekAt ps acc := by
  intro ps
  induction ps with
  | nil => intro acc p h; simp at h
  | cons q qs ih =>
    intro acc p hp
    rcases List.mem_cons.mp hp with heq | htail
    · subst heq
      by_cases hgt : weekAt p > acc
      · exact ⟨missesFromNat m (weekAt p - 1).toNat, by
          rw [missAssign, if_pos hgt]; exact List.mem_cons_self _ _⟩
      · exact ⟨0, by rw [missAssign, if_neg hgt]; exact List.mem_cons_self _ _⟩
    · by_cases hgt : weekAt q > acc
      · obtain ⟨v, hv⟩ := ih _ p htail
        exact ⟨v, by rw [missAssign, if_pos hgt]; exact List.mem_cons_of_mem _ hv⟩
      · obtain ⟨v, hv⟩ := ih _ p htail
        exact ⟨v, by rw [missAssign, if_neg hgt]; exact List.mem_cons_of_mem _ hv⟩

/-- The write-back preserves list length. -/
theorem applyMissAux_length (assign : List (Nat × Int)) :
    ∀ (i : Nat) (l : List StudentRecord), (applyMissAux assign i l).length = l.length := by
  intro i l
  induction l generalizing i with
  | nil => rfl
  | cons r rs ih => simp [applyMissAux, ih]

/-- Elementwise description of the write-back: position `j` (counter
started at `i`) carries the record of the input position `j` whose
consecutive-miss field holds the assignment found for key `i + j`. -/
theorem applyMissAux_getD (assign : List (Nat × Int)) :
    ∀ (l : List StudentRecord) (i j : Nat), j < l.length →
      (applyMissAux assign i l).getD j default =
        { l.getD j default with consecutive_misses :=
            (((assign.find? (fun pv => pv.1 == i + j)).map (fun pv => pv.2)).getD
              ((l.getD j default).consecutive_misses)) } := by
  intro l
  induction l with
  | nil => intro i j hj; simp at hj
  | cons r rs ih =>
    intro i j hj
    cases j with
    | zero => simp [applyMissAux]
    | succ j' =>
      have hj' : j' < rs.length := by simpa using hj
      have hrec := ih (i + 1) j' hj'
      have hidx : i + 1 + j' = i + (j' + 1) := by omega
      rw [hidx] at hrec
      simpa [applyMissAux] using hrec

-- ==================== Claim C2: amended theorem ====================

/-- Claim C2, amended: a record's `consecutive_misses` is 0 whenever the
participant's week map — last record per week in the stable week-sorted
order — holds a true second-variant (Sunday) flag for the immediately
preceding week.  (The record's own flag does not by itself force 0, and a
week-1 record whose flag is overwritten in the map by a later tied record
does not either; see the counterexample.) -/
theorem c2_misses_zero_of_prev_week_map_true (l : List StudentRecord)
    (r : StudentRecord) (hr : r ∈ processParticipantRecords l)
    (hm : weekSunMap (sortByWeek l) (r.week - 1) = some true) :
    r.consecutive_misses = 0 := by
  simp only [processParticipantRecords, processSorted] at hr
  set s2 := cumulativeAux 0 (phasePassAux {} (sortByWeek l)) with hs2
  obtain ⟨r3, hr3, hweek, hmiss, _⟩ := issuePassAux_mem _ _ _ hr
  have hpairs : s2.map (fun q => (q.week, q.sun_submitted)) =
      (sortByWeek l).map (fun q => (q.week, q.sun_submitted)) := by
    rw [hs2, cumulativeAux_pairs, phasePassAux_pairs]
  have hmap : weekSunMap s2 = weekSunMap (sortByWeek l) := weekSunMap_congr _ _ hpairs
  obtain ⟨j, hj, hr3get⟩ := List.mem_iff_getElem.mp hr3
  have hlen : j < s2.length := by
    have := applyMissAux_length
      (missAssign (weekSunMap s2) (fun p => (s2.getD p default).week) (sortPositions s2) 0)
      0 s2
    omega
  have hgd : (applyMissAux
      (missAssign (weekSunMap s2) (fun p => (s2.getD p default).week) (sortPositions s2) 0)
      0 s2).getD j default = r3 := by
    rw [List.getD_eq_getElem _ _ hj]; exact hr3get
  rw [applyMissAux_getD _ _ _ _ hlen] at hgd
  have hvm : r3.consecutive_misses =
      ((((missAssign (weekSunMap s2) (fun p => (s2.getD p default).week)
            (sortPositions s2) 0).find? (fun pv => pv.1 == 0 + j)).map
          (fun pv => pv.2)).getD ((s2.getD j default).consecutive_misses)) := by
    rw [← hgd]
  have hwj : (s2.getD j default).week = r3.week := by rw [← hgd]
  cases hfind : (missAssign (weekSunMap s2) (fun p => (s2.getD p default).week)
      (sortPositions s2) 0).find? (fun pv => pv.1 == 0 + j) with
  | none =>
    exfalso
    have hjmem : j ∈ sortPositions s2 := by
      have hrange : j ∈ List.range s2.length := List.mem_range.mpr hlen
      exact ((List.perm_insertionSort _ _).mem_iff).mpr hrange
    obtain ⟨v, hv⟩ := missAssign_covers (weekSunMap s2)
      (fun p => (s2.getD p default).week) (sortPositions s2) 0 j hjmem
    have := List.find?_eq_none.mp hfind _ hv
    simp at this
  | some pv =>
    have hp : pv.1 = j := by
      have := List.find?_some hfind
      simpa using this
    have hpvmem := List.mem_of_find?_eq_some hfind
    have hv0 : pv.2 = 0 := by
      apply missAssign_val_zero (weekSunMap s2) (fun p => (s2.getD p default).week)
        (sortPositions s2) 0 pv.1 pv.2 (by simpa using hpvmem)
      rw [hp]
      show weekSunMap s2 ((s2.getD j default).week - 1) = some true
      rw [hwj, ← hweek, hmap]
      exact hm
    rw [hmiss, hvm, hfind]
    simp [hv0]

/-- Witness for the amended claim C2: the week-2 record of a participant
whose week-1 record carries a true Sunday flag receives zero consecutive
misses. -/
theorem c2_misses_zero_witness :
    ((processParticipantRecords
        [{ member_id := "m", week := 1, sun_submitted := true },
          { member_id := "m", week := 2 }]).getD 1 default).consecutive_misses = 0 :=
  c2_misses_zero_of_prev_week_map_true
    [{ member_id := "m", week := 1, sun_submitted := true },
      { member_id := "m", week := 2 }]
    _ (by decide) (by decide)

-- ==================== Claim C9 ====================

/-- Every record leaving the full per-participant pipeline has
`weeks_in_phase ≥ 1`. -/
theorem processSorted_weeks_ge (l : List StudentRecord) (r' : StudentRecord)
    (h : r' ∈ processSorted l) : 1 ≤ r'.weeks_in_phase := by
  simp only [processSorted] at h
  obtain ⟨r3, hr3, _, _, hw⟩ := issuePassAux_mem _ _ _ h
  obtain ⟨r2, hr2, hw2⟩ := applyMissAux_mem _ _ _ _ hr3
  obtain ⟨r1, hr1, hw1⟩ := cumulativeAux_mem _ _ _ hr2
  rw [hw, hw2, hw1]
  exact phasePassAux_weeks_ge _ _ _ hr1

/-- A freshly transformed record holds the dataclass default
`weeks_in_phase = 1`. -/
theorem transformRecord_weeks (lookup : List (String × String)) (row : Row) :
    (transformRecord lookup row).weeks_in_phase = 1 := rfl

/-- Claim C9: every record of the final classified set built from any
parsed input rows has `weeks_in_phase ≥ 1` — engine-processed records by
the `max(1, ...)` floor, never-grouped records (blank member id) by the
construction default. -/
theorem c9_weeks_in_phase_ge_one (rawRows : List Row) (lookup : List (String × String))
    (r : StudentRecord)
    (hr : r ∈ processStudents (transformRecords lookup rawRows)) :
    1 ≤ r.weeks_in_phase := by
  simp only [processStudents, calculateDerivedFieldsAll, List.mem_map] at hr
  obtain ⟨r2, ⟨r1, hr1, rfl⟩, rfl⟩ := hr
  have hpres : (calcGradeStatus (calcDerivedRecord r1)).weeks_in_phase =
      r1.weeks_in_phase := rfl
  rw [hpres]
  simp only [calculateWeeksInPhaseAll, List.mem_map] at hr1
  obtain ⟨i, hi, rfl⟩ := hr1
  rw [List.mem_range] at hi
  have hmem : (transformRecords lookup rawRows).getD i default ∈
      transformRecords lookup rawRows := by
    rw [List.getD_eq_getElem _ _ hi]
    exact List.getElem_mem hi
  have hdef : ((transformRecords lookup rawRows).getD i default).weeks_in_phase = 1 := by
    obtain ⟨row, _, heq⟩ := List.mem_map.mp hmem
    rw [← heq]
    exact transformRecord_weeks lookup row
  by_cases hkey : groupKey ((transformRecords lookup rawRows).getD i default) = ""
  · rw [if_pos hkey, hdef]
  · rw [if_neg hkey]
    cases hfind : (processedGroup (transformRecords lookup rawRows)
        (groupKey ((transformRecords lookup rawRows).getD i default))).find?
        (fun q => q.1 == i) with
    | none => rw [hdef]
    | some q =>
      have hqmem := List.mem_of_find?_eq_some hfind
      simp only [processedGroup] at hqmem
      have hq2 : q.2 ∈ processSorted
          ((List.insertionSort (fun a b : Nat × StudentRecord => a.2.week ≤ b.2.week)
            ((indexedStudents (transformRecords lookup rawRows)).filter
              (fun p => groupKey p.2 ==
                groupKey ((transformRecords lookup rawRows).getD i default)))).map
            (fun p => p.2)) := by
        have := List.of_mem_zip (show (q.1, q.2) ∈ _ from hqmem)
        exact this.2
      exact processSorted_weeks_ge _ _ hq2

/-- Witness for claim C9 at a concrete one-row input. -/
theorem c9_weeks_in_phase_witness :
    1 ≤ ((processStudents (transformRecords []
        [[("What's your Member ID?", "m1"), ("Which week is this?", "Week 2")]])).getD 0
      default).weeks_in_phase :=
  c9_weeks_in_phase_ge_one
    [[("What's your Member ID?", "m1"), ("Which week is this?", "Week 2")]] [] _
    (by decide)

-- ==================== Claim C10 ====================

/-- The assembly keeps the list length. -/
theorem calculateWeeksInPhaseAll_length (students : List StudentRecord) :
    (calculateWeeksInPhaseAll students).length = students.length := by
  simp [calculateWeeksInPhaseAll]

/-- The full pipeline keeps the list length. -/
theorem processStudents_length (students : List StudentRecord) :
    (processStudents students).length = students.length := by
  simp [processStudents, calculateDerivedFieldsAll, calculateWeeksInPhaseAll]

/-- A student with a blank stripped member id is never grouped: the
assembly returns it unchanged. -/
theorem calculateWeeksInPhaseAll_getD_blank (students : List StudentRecord) (i : Nat)
    (hi : i < students.length) (hkey : groupKey (students.getD i default) = "") :
    (calculateWeeksInPhaseAll students).getD i default = students.getD i default := by
  have hlen : i < (calculateWeeksInPhaseAll students).length := by
    rw [calculateWeeksInPhaseAll_length]; exact hi
  rw [List.getD_eq_getElem _ _ hlen]
  simp only [calculateWeeksInPhaseAll]
  rw [List.getElem_map, List.getElem_range, if_pos hkey]

/-- Positionally, the pipeline is the classifier after the per-record
derivation after the assembly. -/
theorem processStudents_getD (students : List StudentRecord) (i : Nat)
    (hi : i < students.length) :
    (processStudents students).getD i default =
      calcGradeStatus (calcDerivedRecord
        ((calculateWeeksInPhaseAll students).getD i default)) := by
  have h1 : i < (processStudents students).length := by
    rw [processStudents_length]; exact hi
  have h2 : i < (calculateWeeksInPhaseAll students).length := by
    rw [calculateWeeksInPhaseAll_length]; exact hi
  rw [List.getD_eq_getElem _ _ h1, List.getD_eq_getElem _ _ h2]
  simp only [processStudents, calculateDerivedFieldsAll]
  rw [List.getElem_map, List.getElem_map]

/-- Claim C10: a row whose member-id field strips to the empty string is
never processed by the timeline engine — its classified record is exactly
the classifier applied to the per-record derivation of the untouched
transformed record, so every engine-computed field keeps its construction
default — yet it is classified and appears in the master sheet and in the
sheet of its tier. -/
theorem c10_blank_member_id (rawRows : List Row) (lookup : List (String × String))
    (i : Nat) (hi : i < rawRows.length)
    (hkey : pyStrip ((transformRecords lookup rawRows).getD i default).member_id = "") :
    ((processStudents (transformRecords lookup rawRows)).getD i default =
      calcGradeStatus (calcDerivedRecord
        ((transformRecords lookup rawRows).getD i default))) ∧
    ((processStudents (transformRecords lookup rawRows)).getD i default).weeks_in_phase = 1 ∧
    ((processStudents (transformRecords lookup rawRows)).getD i
      default).weeks_on_contribution = 1 ∧
    ((processStudents (transformRecords lookup rawRows)).getD i
      default).submission_count_cumulative = 0 ∧
    ((processStudents (transformRecords lookup rawRows)).getD i
      default).consecutive_misses = 0 ∧
    ((processStudents (transformRecords lookup rawRows)).getD i
      default).phase_changed_this_week = false ∧
    ((processStudents (transformRecords lookup rawRows)).getD i default).issue_changed =
      false ∧
    ((processStudents (transformRecords lookup rawRows)).getD i
      default).issue_swap_detected = false ∧
    ((processStudents (transformRecords lookup rawRows)).getD i
      default).new_contribution_detected = false ∧
    ((processStudents (transformRecords lookup rawRows)).getD i default ∈
      (buildWorkbook (processStudents (transformRecords lookup rawRows))).masterTracker) ∧
    (((processStudents (transformRecords lookup rawRows)).getD i default).grade_status =
        "🔴 AT RISK" →
      (processStudents (transformRecords lookup rawRows)).getD i default ∈
        (buildWorkbook (processStudents (transformRecords lookup rawRows))).atRisk) ∧
    (((processStudents (transformRecords lookup rawRows)).getD i default).grade_status =
        "🟡 FLAGGED" →
      (processStudents (transformRecords lookup rawRows)).getD i default ∈
        (buildWorkbook (processStudents (transformRecords lookup rawRows))).flagged) ∧
    (((processStudents (transformRecords lookup rawRows)).getD i default).grade_status =
        "🟢 ON TRACK" →
      (processStudents (transformRecords lookup rawRows)).getD i default ∈
        (buildWorkbook (processStudents (transformRecords lookup rawRows))).onTrack) := by
  have hslen : i < (transformRecords lookup rawRows).length := by
    simpa [transformRecords] using hi
  have ha : (processStudents (transformRecords lookup rawRows)).getD i default =
      calcGradeStatus (calcDerivedRecord
        ((transformRecords lookup rawRows).getD i default)) := by
    rw [processStudents_getD _ _ hslen,
      calculateWeeksInPhaseAll_getD_blank _ _ hslen hkey]
  have hs : (transformRecords lookup rawRows).getD i default =
      transformRecord lookup (rawRows.getD i default) := by
    rw [List.getD_eq_getElem _ _ hslen, List.getD_eq_getElem _ _ hi]
    simp [transformRecords]
  have hmem : (processStudents (transformRecords lookup rawRows)).getD i default ∈
      processStudents (transformRecords lookup rawRows) := by
    have hl : i < (processStudents (transformRecords lookup rawRows)).length := by
      rw [processStudents_length]; exact hslen
    rw [List.getD_eq_getElem _ _ hl]
    exact List.getElem_mem hl
  refine ⟨ha, ?_, ?_, ?_, ?_, ?_, ?_, ?_, ?_, hmem, ?_, ?_, ?_⟩
  · rw [ha, hs]; rfl
  · rw [ha, hs]; rfl
  · rw [ha, hs]; rfl
  · rw [ha, hs]; rfl
  · rw [ha, hs]; rfl
  · rw [ha, hs]; rfl
  · rw [ha, hs]; rfl
  · rw [ha, hs]; rfl
  · intro hg
    show _ ∈ atRiskSheet (processStudents (transformRecords lookup rawRows))
    exact ((List.perm_insertionSort _ _).mem_iff).mpr
      (List.mem_filter.mpr ⟨hmem, by simp only [beq_iff_eq]; exact hg⟩)
  · intro hg
    show _ ∈ flaggedSheet (processStudents (transformRecords lookup rawRows))
    exact ((List.perm_insertionSort _ _).mem_iff).mpr
      (List.mem_filter.mpr ⟨hmem, by simp only [beq_iff_eq]; exact hg⟩)
  · intro hg
    show _ ∈ onTrackSheet (processStudents (transformRecords lookup rawRows))
    exact ((List.perm_insertionSort _ _).mem_iff).mpr
      (List.mem_filter.mpr ⟨hmem, by simp only [beq_iff_eq]; exact hg⟩)

/-- Witness for claim C10 at a concrete one-row input whose member id is
a single blank: the record keeps its default timeline fields and lands in
the at-risk sheet (both flags false). -/
theorem c10_blank_member_id_witness :
    ((processStudents (transformRecords []
        [[("What's your Member ID?", " ")]])).getD 0 default).weeks_in_phase = 1 ∧
    (processStudents (transformRecords [] [[("What's your Member ID?", " ")]])).getD 0
        default ∈
      (buildWorkbook (processStudents (transformRecords []
        [[("What's your Member ID?", " ")]]))).atRisk := by
  have h := c10_blank_member_id [[("What's your Member ID?", " ")]] [] 0
    (by decide) (by decide)
  exact ⟨h.2.1, h.2.2.2.2.2.2.2.2.2.2.1 (by decide)⟩
